import Mathlib

/-!
Verification of the dependency-resolution and manifest-generation core of
scripts/generate_crates.py (class CrateGenerator).

The Python code is shallowly embedded as follows.

* Python dicts are association lists that keep insertion order, matching the
  iteration order guarantee of Python dicts; a node of the dag data carries
  exactly its status string.
* Edges are pairs: first component produces for the second component, mirroring
  the from and to keys of the edge dicts.
* The expression list(set(external_deps)) at line 119 produces a duplicate-free
  list whose element order is unspecified by Python (string hashing is
  randomized across processes).  The function _get_crate_dependencies below
  returns one canonical enumeration (List.dedup); the predicate IsSetEnum
  characterises every enumeration a run of the interpreter may produce, and is
  used to analyse order stability of the emitted manifests.
* The float comparisons completion_rate >= 0.8 and >= 0.5 at lines 144 and 146
  are modelled over the rationals (classify_rat, a literal transcription);
  the executable definition classify uses the equivalent integer comparisons
  10 * completed >= 8 * total and 10 * completed >= 5 * total, and the lemma
  classify_eq_classify_rat proves the two agree.  At the magnitudes involved
  (total is a list length) the double-precision quotient and the rational
  quotient fall on the same side of both thresholds.
-/

namespace GenerateCrates

/-- crate_mapping from CrateGenerator.init (lines 21 to 43), with the insertion
order of the Python dict kept as list order. -/
def crate_mapping : List (String × List String) :=
  [("kotoba-core",
     ["types", "ir_catalog", "ir_rule", "ir_query", "ir_patch", "ir_strategy"]),
   ("kotoba-graph",
     ["graph_vertex", "graph_edge", "graph_core"]),
   ("kotoba-storage",
     ["storage_mvcc", "storage_merkle", "storage_lsm"]),
   ("kotoba-execution",
     ["execution_parser", "execution_engine", "planner_logical",
      "planner_physical", "planner_optimizer"]),
   ("kotoba-rewrite",
     ["rewrite_matcher", "rewrite_applier", "rewrite_engine"]),
   ("kotoba-server",
     ["http_ir", "http_parser", "http_handlers", "http_engine", "http_server",
      "frontend_component_ir", "frontend_route_ir", "frontend_render_ir",
      "frontend_build_ir", "frontend_api_ir", "frontend_framework"])]

/-- Node table of _load_dag_data (lines 56 to 88): component id paired with its
status string. -/
def dag_nodes : List (String × String) :=
  [("types", "completed"), ("ir_catalog", "completed"), ("ir_rule", "completed"),
   ("ir_query", "completed"), ("ir_patch", "completed"), ("ir_strategy", "completed"),
   ("graph_vertex", "completed"), ("graph_edge", "completed"), ("graph_core", "completed"),
   ("storage_mvcc", "completed"), ("storage_merkle", "completed"), ("storage_lsm", "completed"),
   ("execution_parser", "completed"), ("execution_engine", "completed"),
   ("planner_logical", "completed"), ("planner_physical", "completed"),
   ("planner_optimizer", "completed"), ("rewrite_matcher", "completed"),
   ("rewrite_applier", "completed"), ("rewrite_engine", "completed"),
   ("http_ir", "completed"), ("http_parser", "pending"), ("http_handlers", "pending"),
   ("http_engine", "pending"), ("http_server", "pending"),
   ("frontend_component_ir", "completed"), ("frontend_route_ir", "completed"),
   ("frontend_render_ir", "completed"), ("frontend_build_ir", "completed"),
   ("frontend_api_ir", "completed"), ("frontend_framework", "in_progress")]

/-- Edge list of _load_dag_data (lines 89 to 96): pairs (from, to). -/
def dag_edges : List (String × String) :=
  [("types", "ir_catalog"), ("types", "graph_vertex"), ("types", "graph_edge"),
   ("graph_vertex", "graph_core"), ("graph_edge", "graph_core"), ("types", "graph_core")]

/-- _get_crate_from_component (lines 121 to 126): the first crate of the
mapping whose component list contains the component, defaulting to
kotoba-core. -/
def _get_crate_from_component (mapping : List (String × List String))
    (component : String) : String :=
  match mapping.find? (fun p => p.2.contains component) with
  | some p => p.1
  | none => "kotoba-core"

/-- _get_crate_dependencies (lines 99 to 119).  all_deps collects, as a set,
the producers of every component of the crate that is present in the node
table; each producer is mapped to its owning crate; producers owned by the
crate itself are dropped; the final list(set(...)) is rendered as List.dedup,
one canonical enumeration of the set (see IsSetEnum for the others). -/
def _get_crate_dependencies (mapping : List (String × List String))
    (nodes : List (String × String)) (edges : List (String × String))
    (crate_name : String) : List String :=
  match List.lookup crate_name mapping with
  | none => []
  | some components =>
    let all_deps :=
      ((components.filter (fun comp => (List.lookup comp nodes).isSome)).flatMap
        (fun comp => (edges.filter (fun e => e.2 == comp)).map Prod.fst)).dedup
    let external_deps :=
      (all_deps.map (fun dep => _get_crate_from_component mapping dep)).filter
        (fun dep_crate => dep_crate != crate_name)
    external_deps.dedup

/-- Components of a crate as read at line 134, crate_mapping.get(name, []). -/
def componentsOf (mapping : List (String × List String)) (crate_name : String) :
    List String :=
  (List.lookup crate_name mapping).getD []

/-- total_count of _get_crate_version (lines 131 to 138): components of the
crate present in the node table. -/
def total_count (mapping : List (String × List String))
    (nodes : List (String × String)) (crate_name : String) : ℕ :=
  ((componentsOf mapping crate_name).filter
    (fun comp => (List.lookup comp nodes).isSome)).length

/-- completed_count of _get_crate_version (lines 131 to 138): components of the
crate present in the node table with status completed. -/
def completed_count (mapping : List (String × List String))
    (nodes : List (String × String)) (crate_name : String) : ℕ :=
  ((componentsOf mapping crate_name).filter
    (fun comp => List.lookup comp nodes == some "completed")).length

/-- Lines 140 to 149 of _get_crate_version, transcribed literally: the
completion rate completed/total compared against 0.8 and 0.5 (here over the
rationals; the Python floats agree at these magnitudes). -/
def classify_rat (completed_count total_count : ℕ) : String :=
  if total_count = 0 then "0.1.0"
  else
    let completion_rate : ℚ := (completed_count : ℚ) / (total_count : ℚ)
    if completion_rate ≥ 0.8 then "0.1.0"
    else if completion_rate ≥ 0.5 then "0.1.0-alpha"
    else "0.1.0-dev"

/-- Kernel-executable form of classify_rat: the threshold comparisons scaled by
10 into the integers.  classify_eq_classify_rat proves the agreement. -/
def classify (completed_count total_count : ℕ) : String :=
  if total_count = 0 then "0.1.0"
  else if 10 * completed_count ≥ 8 * total_count then "0.1.0"
  else if 10 * completed_count ≥ 5 * total_count then "0.1.0-alpha"
  else "0.1.0-dev"

/-- _get_crate_version (lines 128 to 149): count the components and classify
the completion rate. -/
def _get_crate_version (mapping : List (String × List String))
    (nodes : List (String × String)) (crate_name : String) : String :=
  classify (completed_count mapping nodes crate_name)
    (total_count mapping nodes crate_name)

/-- Tier order used to state monotonicity of the version policy:
dev is 0, alpha is 1, release is 2. -/
def tier (v : String) : ℕ :=
  if v = "0.1.0" then 2 else if v = "0.1.0-alpha" then 1 else 0

/-- Admissible iteration orders of a Python set holding the elements of s:
duplicate-free lists with exactly the members of s.  Python fixes one such
order per process (string hashing is randomized), so one run of the script
observes one arbitrary element of this family. -/
def IsSetEnum (l s : List String) : Prop :=
  l.Nodup ∧ (∀ x ∈ l, x ∈ s) ∧ (∀ x ∈ s, x ∈ l)

instance instDecidableIsSetEnum (l s : List String) : Decidable (IsSetEnum l s) :=
  inferInstanceAs (Decidable (_ ∧ _ ∧ _))

/-- Python repr of a list of strings, as interpolated by the f-string at line
175 (single quotes around each element). -/
def pyStrListRepr (l : List String) : String :=
  "[" ++ String.intercalate ", " (l.map (fun s => "\x27" ++ s ++ "\x27")) ++ "]"

/-- Value of an entry of common_deps (lines 46 to 51): either a bare version
string or a dict with a version and a feature list. -/
inductive DepConfig where
  | str (v : String)
  | dict (version : String) (features : List String)
deriving DecidableEq

/-- common_deps from CrateGenerator.init (lines 46 to 51). -/
def common_deps : List (String × DepConfig) :=
  [("serde", DepConfig.dict "1.0" ["derive"]),
   ("serde_json", DepConfig.str "1.0"),
   ("thiserror", DepConfig.str "2.0"),
   ("anyhow", DepConfig.str "1.0")]

/-- Rendering of one common dependency, lines 169 to 177 of
generate_cargo_toml. -/
def renderCommonDep : String × DepConfig → String
  | (dep, DepConfig.str config) => dep ++ " = \"" ++ config ++ "\"\n"
  | (dep, DepConfig.dict version features) =>
    if features.isEmpty then dep ++ " = \"" ++ version ++ "\"\n"
    else
      dep ++ " = \x7b version = \"" ++ version ++ "\", features = " ++
        pyStrListRepr features ++ " \x7d\n"

/-- Python str.split with a one-character separator, on the character list so
the kernel can evaluate it: empty fields are kept, the empty string splits to
one empty field. -/
def splitOnChar (sep : Char) : List Char → List (List Char)
  | [] => [[]]
  | c :: rest =>
    let r := splitOnChar sep rest
    if c == sep then [] :: r
    else match r with
      | [] => [[c]]
      | h :: t => (c :: h) :: t

/-- Python s.split(sep) for a one-character separator. -/
def pySplit (s : String) (sep : Char) : List String :=
  (splitOnChar sep s.data).map String.mk

/-- Python str.title applied to a single word, as used at line 161 on the part
of the crate name after the dash: first character uppercased, the rest
lowercased (written on the character list so the kernel can evaluate it). -/
def title (s : String) : String :=
  match s.data with
  | [] => ""
  | c :: rest => String.mk (c.toUpper :: rest.map Char.toLower)

/-- Header template of generate_cargo_toml (lines 157 to 166).  Line 161 takes
the second dash-separated part of the crate name; every crate the script
generates contains a dash, and getD supplies a default for the others (where
Python would raise IndexError). -/
def cargo_toml_header (crate_name version : String) : String :=
  "[package]\nname = \"" ++ crate_name ++ "\"\nversion = \"" ++ version ++
  "\"\nedition = \"2021\"\ndescription = \"Kotoba " ++
  title ((pySplit crate_name '-').getD 1 "") ++
  " Components\"\nlicense = \"Apache-2.0\"\nrepository = \"https://github.com/com-junkawasaki/kotoba\"\n\n[dependencies]\n"

/-- WASM feature block appended for kotoba-core, kotoba-graph and
kotoba-server (lines 186 to 197). -/
def wasm_features_block : String :=
  "\n[features]\ndefault = [\"std\"]\nstd = []\nwasm = [\"wasm-bindgen\", \"web-sys\", \"js-sys\"]\n\n[target.\x27cfg(target_arch = \"wasm32\")\x27.dependencies]\nwasm-bindgen = \x7b version = \"0.2\", optional = true \x7d\nweb-sys = \x7b version = \"0.3\", optional = true \x7d\njs-sys = \x7b version = \"0.3\", optional = true \x7d\n"

/-- Dev-dependencies block appended to every crate manifest (lines 200 to
203). -/
def dev_dependencies_block : String :=
  "\n[dev-dependencies]\ntokio = \x7b version = \"1.0\", features = [\"full\"] \x7d\n"

/-- generate_cargo_toml (lines 151 to 205) with the internal dependency list
passed explicitly, so that the unspecified enumeration order of
list(set(...)) can be analysed: a run of the script instantiates dependencies
with some IsSetEnum enumeration of the resolved dependency set. -/
def generate_cargo_toml_with (mapping : List (String × List String))
    (nodes : List (String × String)) (crate_name : String)
    (dependencies : List String) : String :=
  let version := _get_crate_version mapping nodes crate_name
  let base := cargo_toml_header crate_name version
  let withCommon := common_deps.foldl (fun acc d => acc ++ renderCommonDep d) base
  let withInternal := dependencies.foldl (fun acc dep =>
    if dep != "" && dep != crate_name then
      acc ++ dep ++ " = \x7b path = \"../" ++ dep ++ "\", version = \"" ++
        _get_crate_version mapping nodes dep ++ "\" \x7d\n"
    else acc) withCommon
  let withWasm :=
    if ["kotoba-core", "kotoba-graph", "kotoba-server"].contains crate_name
    then withInternal ++ wasm_features_block else withInternal
  withWasm ++ dev_dependencies_block

/-- generate_cargo_toml (lines 151 to 205) under the canonical dependency
enumeration of _get_crate_dependencies. -/
def generate_cargo_toml (mapping : List (String × List String))
    (nodes : List (String × String)) (edges : List (String × String))
    (crate_name : String) : String :=
  generate_cargo_toml_with mapping nodes crate_name
    (_get_crate_dependencies mapping nodes edges crate_name)

/-- Data for concrete instances: a partition with one crate whose single
component is never declared in the node table. -/
def cx8_mapping : List (String × List String) := [("kotoba-x", ["c"])]

/-- Edge referencing the undeclared component c as consumer. -/
def cx8_edges : List (String × String) := [("a", "c")]

/-- Data for concrete instances: one crate with two mutually dependent
components. -/
def cx6_mapping : List (String × List String) := [("kotoba-x", ["a", "b"])]

/-- Node table for cx6_mapping. -/
def cx6_nodes : List (String × String) := [("a", "completed"), ("b", "completed")]

/-- Mutually dependent edges inside the single crate of cx6_mapping. -/
def cx6_edges : List (String × String) := [("a", "b"), ("b", "a")]

/-- Data for concrete instances: a crate whose single component has producers
in two distinct other crates. -/
def cx_mapping : List (String × List String) :=
  [("kotoba-x", ["c"]), ("kotoba-a", ["a"]), ("kotoba-b", ["b"])]

/-- Node table for cx_mapping. -/
def cx_nodes : List (String × String) :=
  [("a", "completed"), ("b", "completed"), ("c", "completed")]

/-- Edges for cx_mapping: both a and b produce for c. -/
def cx_edges : List (String × String) := [("a", "c"), ("b", "c")]

/-- workspace_members of generate_workspace_cargo_toml (line 238): the keys of
the crate mapping in insertion order. -/
def workspace_members (mapping : List (String × List String)) : List String :=
  mapping.map Prod.fst

/-- generate_workspace_cargo_toml (lines 236 to 260). -/
def generate_workspace_cargo_toml (mapping : List (String × List String)) :
    String :=
  let members_str := String.intercalate "\n"
    ((workspace_members mapping).map (fun member => "    \"" ++ member ++ "\","))
  "[workspace]\nmembers = [\n" ++ members_str ++
  "\n    \"kotoba\",  # Root crate\n]\n\n[workspace.package]\nversion = \"0.1.0\"\nedition = \"2021\"\nlicense = \"Apache-2.0\"\nrepository = \"https://github.com/com-junkawasaki/kotoba\"\n\n[workspace.dependencies]\n# Common dependencies can be defined here\nserde = \x7b version = \"1.0\", features = [\"derive\"] \x7d\nserde_json = \"1.0\"\nthiserror = \"2.0\"\nanyhow = \"1.0\"\n"

/-- Member identifiers the emitted workspace manifest lists inside its members
array, read off the template at lines 242 to 246: one entry per interpolated
workspace member, followed by the hard-coded root crate entry kotoba (the TOML
comment after it is not part of the value). -/
def workspace_manifest_member_ids (mapping : List (String × List String)) :
    List String :=
  workspace_members mapping ++ ["kotoba"]

/-- The executable classify agrees with the literal rational transcription
classify_rat of lines 140 to 149. -/
lemma rate_ge_iff (c t k : ℕ) (ht : 0 < t) :
    ((k : ℚ) / 10 ≤ (c : ℚ) / (t : ℚ)) ↔ k * t ≤ 10 * c := by
  have htq : (0:ℚ) < (t:ℚ) := by exact_mod_cast ht
  rw [div_le_div_iff₀ (by norm_num) htq]
  constructor
  · intro h
    have h2 : (k:ℚ) * t ≤ 10 * c := by linarith
    exact_mod_cast h2
  · intro h
    have h2 : (k:ℚ) * t ≤ 10 * c := by exact_mod_cast h
    linarith

lemma classify_eq_classify_rat (c t : ℕ) : classify c t = classify_rat c t := by
  rcases Nat.eq_zero_or_pos t with h | h
  · simp [classify, classify_rat, h]
  · have h8 : ((0.8:ℚ) ≤ (c:ℚ) / (t:ℚ)) ↔ 8 * t ≤ 10 * c := by
      rw [show (0.8:ℚ) = 8 / 10 by norm_num]
      exact rate_ge_iff c t 8 h
    have h5 : ((0.5:ℚ) ≤ (c:ℚ) / (t:ℚ)) ↔ 5 * t ≤ 10 * c := by
      rw [show (0.5:ℚ) = 5 / 10 by norm_num]
      exact rate_ge_iff c t 5 h
    simp only [classify, classify_rat, Nat.pos_iff_ne_zero.mp h, if_false,
      ge_iff_le, h8, h5]

/-- Claim C1: for every package, _get_crate_dependencies never contains the
package itself and contains no duplicate entries, for any graph and
partition. -/
theorem resolve_no_self_no_dup (mapping : List (String × List String))
    (nodes edges : List (String × String)) (crate_name : String) :
    crate_name ∉ _get_crate_dependencies mapping nodes edges crate_name ∧
    (_get_crate_dependencies mapping nodes edges crate_name).Nodup := by
  unfold _get_crate_dependencies
  cases List.lookup crate_name mapping with
  | none => simp
  | some components =>
    refine ⟨fun hmem => ?_, List.nodup_dedup _⟩
    rw [List.mem_dedup, List.mem_filter] at hmem
    simp at hmem

/-- Claim C3 evaluation: the code silently returns the release string for a
package with zero components instead of raising an EmptyPackage error. -/
theorem versionOf_zero_components_release :
    _get_crate_version [("kotoba-empty", ([] : List String))] [] "kotoba-empty"
      = "0.1.0" := by decide

/-- Claim C6: when every edge into a component of the package comes from a
component owned by the package itself, the resolved dependency set is
empty. -/
theorem resolve_empty_without_external_producers
    (mapping : List (String × List String))
    (nodes edges : List (String × String)) (crate_name : String)
    (h : ∀ e ∈ edges, e.2 ∈ componentsOf mapping crate_name →
      _get_crate_from_component mapping e.1 = crate_name) :
    _get_crate_dependencies mapping nodes edges crate_name = [] := by
  unfold _get_crate_dependencies
  cases hl : List.lookup crate_name mapping with
  | none => rfl
  | some components =>
    rw [List.dedup_eq_nil, List.filter_eq_nil_iff]
    intro x hx
    rw [List.mem_map] at hx
    obtain ⟨dep, hdep, hxeq⟩ := hx
    rw [List.mem_dedup, List.mem_flatMap] at hdep
    obtain ⟨comp, hcomp, hprod⟩ := hdep
    rw [List.mem_map] at hprod
    obtain ⟨e, he, heq⟩ := hprod
    rw [List.mem_filter] at he hcomp
    have he2 : e.2 = comp := by simpa using he.2
    have hcrate : _get_crate_from_component mapping e.1 = crate_name := by
      apply h e he.1
      rw [componentsOf, hl, he2]
      simpa using hcomp.1
    have : x = crate_name := by
      rw [← hxeq, ← heq, hcrate]
    simp [this]

theorem resolve_empty_without_external_producers_witness :
    _get_crate_dependencies cx6_mapping cx6_nodes cx6_edges "kotoba-x" = [] :=
  resolve_empty_without_external_producers cx6_mapping cx6_nodes cx6_edges
    "kotoba-x" (by decide)

/-- Claim C7: _get_crate_from_component is total with a kotoba-core fallback:
its result either owns the component in the mapping, or equals kotoba-core
with the component assigned to no crate of the mapping. -/
theorem packageOf_total_fallback (mapping : List (String × List String))
    (component : String) :
    (∃ comps, (_get_crate_from_component mapping component, comps) ∈ mapping ∧
      component ∈ comps) ∨
    (_get_crate_from_component mapping component = "kotoba-core" ∧
      ∀ p ∈ mapping, component ∉ p.2) := by
  unfold _get_crate_from_component
  cases hf : mapping.find? (fun p => p.2.contains component) with
  | none =>
    right
    refine ⟨rfl, fun p hp hc => ?_⟩
    have hnp := List.find?_eq_none.mp hf p hp
    exact hnp (by simpa using hc)
  | some p =>
    left
    refine ⟨p.2, ?_, ?_⟩
    · exact List.mem_of_find?_eq_some hf
    · have hc := List.find?_some hf
      simpa using hc

/-- Claim C8 counterexample: an edge whose consumer was never added to the
node table is silently ignored (the resolver returns a value, not an
UnknownComponent failure), and an absent producer of a present consumer is
routed through the default package rather than rejected. -/
theorem unknown_component_no_failure :
    List.lookup "c" ([] : List (String × String)) = none ∧
    ("a", "c") ∈ cx8_edges ∧
    _get_crate_dependencies cx8_mapping [] cx8_edges "kotoba-x" = [] ∧
    _get_crate_dependencies cx8_mapping [("c", "completed")] cx8_edges
      "kotoba-x" = ["kotoba-core"] := by decide

/-- Claim C8 amended: during resolution, a package component absent from the
node table contributes no producers, so a package all of whose components are
undeclared resolves to the empty list with no failure. -/
theorem resolve_ignores_absent_components
    (mapping : List (String × List String))
    (nodes edges : List (String × String)) (crate_name : String)
    (h : ∀ c ∈ componentsOf mapping crate_name, List.lookup c nodes = none) :
    _get_crate_dependencies mapping nodes edges crate_name = [] := by
  unfold _get_crate_dependencies
  cases hl : List.lookup crate_name mapping with
  | none => rfl
  | some components =>
    have hfilter :
        components.filter (fun comp => (List.lookup comp nodes).isSome) = [] := by
      rw [List.filter_eq_nil_iff]
      intro c hc
      have hn := h c (by rw [componentsOf, hl]; simpa using hc)
      simp [hn]
    simp [hfilter]

theorem resolve_ignores_absent_components_witness :
    _get_crate_dependencies cx8_mapping [] cx8_edges "kotoba-x" = [] :=
  resolve_ignores_absent_components cx8_mapping [] cx8_edges "kotoba-x"
    (by decide)

/-- Claim C10: a package name that is not a key of the crate mapping resolves
to the empty dependency list and to the base version string, with no
failure. -/
theorem unmapped_crate_defaults (mapping : List (String × List String))
    (nodes edges : List (String × String)) (crate_name : String)
    (h : List.lookup crate_name mapping = none) :
    _get_crate_dependencies mapping nodes edges crate_name = [] ∧
    _get_crate_version mapping nodes crate_name = "0.1.0" := by
  constructor
  · unfold _get_crate_dependencies
    rw [h]
  · unfold _get_crate_version total_count completed_count componentsOf
    rw [h]
    simp [classify]

theorem unmapped_crate_defaults_witness :
    _get_crate_dependencies crate_mapping dag_nodes dag_edges "kotoba-unknown"
      = [] ∧
    _get_crate_version crate_mapping dag_nodes "kotoba-unknown" = "0.1.0" :=
  unmapped_crate_defaults crate_mapping dag_nodes dag_edges "kotoba-unknown"
    (by decide)

lemma classify_spec (c t : ℕ) (ht : t ≠ 0) :
    (classify c t = "0.1.0" ↔ (0.8:ℚ) ≤ (c:ℚ) / (t:ℚ)) ∧
    (classify c t = "0.1.0-alpha" ↔
      (0.5:ℚ) ≤ (c:ℚ) / (t:ℚ) ∧ (c:ℚ) / (t:ℚ) < 0.8) ∧
    (classify c t = "0.1.0-dev" ↔ (c:ℚ) / (t:ℚ) < 0.5) := by
  have hpos : 0 < t := Nat.pos_of_ne_zero ht
  have h8 : ((0.8:ℚ) ≤ (c:ℚ) / (t:ℚ)) ↔ 8 * t ≤ 10 * c := by
    rw [show (0.8:ℚ) = 8 / 10 by norm_num]
    exact rate_ge_iff c t 8 hpos
  have h5 : ((0.5:ℚ) ≤ (c:ℚ) / (t:ℚ)) ↔ 5 * t ≤ 10 * c := by
    rw [show (0.5:ℚ) = 5 / 10 by norm_num]
    exact rate_ge_iff c t 5 hpos
  unfold classify
  rw [if_neg ht]
  by_cases hc8 : 10 * c ≥ 8 * t
  · rw [if_pos hc8]
    have hr8 : (0.8:ℚ) ≤ (c:ℚ) / (t:ℚ) := h8.mpr hc8
    have hr5 : (0.5:ℚ) ≤ (c:ℚ) / (t:ℚ) := le_trans (by norm_num) hr8
    refine ⟨⟨fun _ => hr8, fun _ => rfl⟩, ?_, ?_⟩
    · refine ⟨fun hh => absurd hh (by decide), ?_⟩
      rintro ⟨-, hlt⟩
      exact absurd hr8 (not_le.mpr hlt)
    · refine ⟨fun hh => absurd hh (by decide), fun hlt => ?_⟩
      exact absurd hr5 (not_le.mpr hlt)
  · rw [if_neg hc8]
    have hlt8 : (c:ℚ) / (t:ℚ) < 0.8 := not_le.mp (fun hh => hc8 (h8.mp hh))
    by_cases hc5 : 10 * c ≥ 5 * t
    · rw [if_pos hc5]
      have hr5 : (0.5:ℚ) ≤ (c:ℚ) / (t:ℚ) := h5.mpr hc5
      refine ⟨?_, ⟨fun _ => ⟨hr5, hlt8⟩, fun _ => rfl⟩, ?_⟩
      · refine ⟨fun hh => absurd hh (by decide), fun hh => ?_⟩
        exact absurd hh (not_le.mpr hlt8)
      · refine ⟨fun hh => absurd hh (by decide), fun hlt => ?_⟩
        exact absurd hr5 (not_le.mpr hlt)
    · rw [if_neg hc5]
      have hlt5 : (c:ℚ) / (t:ℚ) < 0.5 := not_le.mp (fun hh => hc5 (h5.mp hh))
      refine ⟨?_, ?_, fun _ => hlt5, fun _ => rfl⟩
      · refine ⟨fun hh => absurd hh (by decide), fun hh => ?_⟩
        exact absurd hh (not_le.mpr hlt8)
      · refine ⟨fun hh => absurd hh (by decide), fun hh => ?_⟩
        exact absurd hh.1 (not_le.mpr hlt5)

/-- Claim C2: for a package whose counted component total is nonzero, the
version policy classifies the completion ratio with inclusive lower bounds:
release at ratio at least 0.8, alpha at ratio in [0.5, 0.8), dev below 0.5;
the boundary ratios 0.8 and 0.5 land in the higher tier. -/
theorem versionOf_threshold_classification
    (mapping : List (String × List String)) (nodes : List (String × String))
    (crate_name : String)
    (ht : total_count mapping nodes crate_name ≠ 0) :
    (_get_crate_version mapping nodes crate_name = "0.1.0" ↔
      (0.8:ℚ) ≤ (completed_count mapping nodes crate_name : ℚ) /
        (total_count mapping nodes crate_name : ℚ)) ∧
    (_get_crate_version mapping nodes crate_name = "0.1.0-alpha" ↔
      (0.5:ℚ) ≤ (completed_count mapping nodes crate_name : ℚ) /
        (total_count mapping nodes crate_name : ℚ) ∧
      (completed_count mapping nodes crate_name : ℚ) /
        (total_count mapping nodes crate_name : ℚ) < 0.8) ∧
    (_get_crate_version mapping nodes crate_name = "0.1.0-dev" ↔
      (completed_count mapping nodes crate_name : ℚ) /
        (total_count mapping nodes crate_name : ℚ) < 0.5) :=
  classify_spec (completed_count mapping nodes crate_name)
    (total_count mapping nodes crate_name) ht

theorem versionOf_threshold_classification_witness :
    total_count crate_mapping dag_nodes "kotoba-server" ≠ 0 ∧
    (_get_crate_version crate_mapping dag_nodes "kotoba-server"
      = "0.1.0-alpha" ↔
      (0.5:ℚ) ≤ (completed_count crate_mapping dag_nodes "kotoba-server" : ℚ) /
        (total_count crate_mapping dag_nodes "kotoba-server" : ℚ) ∧
      (completed_count crate_mapping dag_nodes "kotoba-server" : ℚ) /
        (total_count crate_mapping dag_nodes "kotoba-server" : ℚ) < 0.8) :=
  ⟨by decide,
    (versionOf_threshold_classification crate_mapping dag_nodes "kotoba-server"
      (by decide)).2.1⟩

lemma tier_classify_monotone (c c' t : ℕ) (hc : c ≤ c') :
    tier (classify c t) ≤ tier (classify c' t) := by
  unfold classify
  by_cases h0 : t = 0
  · rw [if_pos h0, if_pos h0]
  · rw [if_neg h0, if_neg h0]
    by_cases h8 : 10 * c ≥ 8 * t
    · rw [if_pos h8, if_pos (show 10 * c' ≥ 8 * t by omega)]
    · rw [if_neg h8]
      by_cases h8' : 10 * c' ≥ 8 * t
      · rw [if_pos h8']
        by_cases h5 : 10 * c ≥ 5 * t
        · rw [if_pos h5]
          decide
        · rw [if_neg h5]
          decide
      · rw [if_neg h8']
        by_cases h5 : 10 * c ≥ 5 * t
        · rw [if_pos h5, if_pos (show 10 * c' ≥ 5 * t by omega)]
        · rw [if_neg h5]
          by_cases h5' : 10 * c' ≥ 5 * t
          · rw [if_pos h5']
            decide
          · rw [if_neg h5']

/-- Claim C5: the version policy is monotone in the completion count: with the
counted total held fixed and positive, a node table with at least as many
completed components never yields a lower tier (dev below alpha below
release). -/
theorem versionOf_monotone (mapping : List (String × List String))
    (nodes nodes' : List (String × String)) (crate_name : String)
    (htot : total_count mapping nodes crate_name
      = total_count mapping nodes' crate_name)
    (_hpos : 0 < total_count mapping nodes crate_name)
    (hc : completed_count mapping nodes crate_name
      ≤ completed_count mapping nodes' crate_name) :
    tier (_get_crate_version mapping nodes crate_name) ≤
      tier (_get_crate_version mapping nodes' crate_name) := by
  unfold _get_crate_version
  rw [← htot]
  exact tier_classify_monotone _ _ _ hc

theorem versionOf_monotone_witness :
    tier (_get_crate_version [("kotoba-x", ["a", "b"])]
      [("a", "completed"), ("b", "pending")] "kotoba-x") ≤
    tier (_get_crate_version [("kotoba-x", ["a", "b"])]
      [("a", "completed"), ("b", "completed")] "kotoba-x") :=
  versionOf_monotone [("kotoba-x", ["a", "b"])]
    [("a", "completed"), ("b", "pending")]
    [("a", "completed"), ("b", "completed")] "kotoba-x"
    (by decide) (by decide) (by decide)

set_option maxRecDepth 8000 in
/-- Claim C9 counterexample: the workspace manifest emitted for the script's
partition hard-codes an extra member kotoba (the root crate, line 245) inside
the members array, and kotoba is not one of the partition's package
identifiers, so the manifest does not list exactly the partition's package
identifiers. -/
theorem workspace_manifest_extra_root_member :
    generate_workspace_cargo_toml crate_mapping =
      "[workspace]\nmembers = [\n    \"kotoba-core\",\n    \"kotoba-graph\",\n    \"kotoba-storage\",\n    \"kotoba-execution\",\n    \"kotoba-rewrite\",\n    \"kotoba-server\",\n    \"kotoba\",  # Root crate\n]\n\n[workspace.package]\nversion = \"0.1.0\"\nedition = \"2021\"\nlicense = \"Apache-2.0\"\nrepository = \"https://github.com/com-junkawasaki/kotoba\"\n\n[workspace.dependencies]\n# Common dependencies can be defined here\nserde = \x7b version = \"1.0\", features = [\"derive\"] \x7d\nserde_json = \"1.0\"\nthiserror = \"2.0\"\nanyhow = \"1.0\"\n" ∧
    "kotoba" ∉ workspace_members crate_mapping ∧
    workspace_manifest_member_ids crate_mapping ≠ workspace_members crate_mapping := by
  refine ⟨by decide, by decide, by decide⟩

/-- Claim C9 amended: under the dict key invariant (no duplicate package
names), the members array of the emitted workspace manifest lists each
partition package identifier exactly once, in the insertion order of the
partition definition, followed by one hard-coded extra member kotoba that is
not derived from the partition: the manifest is the member lines of the
mapping keys plus the root crate line, and each identifier is counted once as
a key plus once more only if it equals kotoba. -/
theorem workspace_manifest_members_with_root
    (mapping : List (String × List String))
    (h : (mapping.map Prod.fst).Nodup) :
    generate_workspace_cargo_toml mapping =
      "[workspace]\nmembers = [\n" ++
      String.intercalate "\n"
        ((mapping.map Prod.fst).map (fun member => "    \"" ++ member ++ "\",")) ++
      "\n    \"kotoba\",  # Root crate\n]\n\n[workspace.package]\nversion = \"0.1.0\"\nedition = \"2021\"\nlicense = \"Apache-2.0\"\nrepository = \"https://github.com/com-junkawasaki/kotoba\"\n\n[workspace.dependencies]\n# Common dependencies can be defined here\nserde = \x7b version = \"1.0\", features = [\"derive\"] \x7d\nserde_json = \"1.0\"\nthiserror = \"2.0\"\nanyhow = \"1.0\"\n" ∧
    ∀ m : String, List.count m (workspace_manifest_member_ids mapping) =
      (if m ∈ mapping.map Prod.fst then 1 else 0) +
      (if m = "kotoba" then 1 else 0) := by
  refine ⟨rfl, fun m => ?_⟩
  unfold workspace_manifest_member_ids workspace_members
  rw [List.count_append]
  have h1 : List.count m (mapping.map Prod.fst) =
      if m ∈ mapping.map Prod.fst then 1 else 0 := by
    by_cases hm : m ∈ mapping.map Prod.fst
    · rw [if_pos hm]
      exact List.count_eq_one_of_mem h hm
    · rw [if_neg hm]
      exact List.count_eq_zero_of_not_mem hm
  have h2 : List.count m ["kotoba"] = if m = "kotoba" then 1 else 0 := by
    by_cases hk : m = "kotoba"
    · simp [hk]
    · simp [List.count_cons, hk]
  rw [h1, h2]

theorem workspace_manifest_members_with_root_witness :
    List.count "kotoba-graph" (workspace_manifest_member_ids crate_mapping) = 1 ∧
    List.count "kotoba" (workspace_manifest_member_ids crate_mapping) = 1 := by
  have h := (workspace_manifest_members_with_root crate_mapping (by decide)).2
  constructor
  · rw [h "kotoba-graph"]
    decide
  · rw [h "kotoba"]
    decide

lemma isSetEnum_nil {l : List String} (h : IsSetEnum l []) : l = [] := by
  cases l with
  | nil => rfl
  | cons a t => exact absurd (h.2.1 a (List.mem_cons_self a t)) (List.not_mem_nil a)

lemma isSetEnum_singleton {l : List String} {a : String} (h : IsSetEnum l [a]) :
    l = [a] := by
  obtain ⟨hnd, hls, hsl⟩ := h
  cases l with
  | nil => exact absurd (hsl a (by simp)) (List.not_mem_nil a)
  | cons x t =>
    have hx : x = a := by simpa using hls x (List.mem_cons_self x t)
    subst hx
    have ht : t = [] := by
      by_contra hne
      obtain ⟨y, hy⟩ := List.exists_mem_of_ne_nil t hne
      have hyx : y = x := by simpa using hls y (List.mem_cons_of_mem _ hy)
      exact (List.nodup_cons.mp hnd).1 (hyx ▸ hy)
    rw [ht]

set_option maxRecDepth 8000 in
/-- Claim C4 counterexample: on a partition where one crate has producers in
two other crates, two admissible enumerations of the Python set of resolved
dependencies exist whose emitted manifests differ byte-wise, so byte-identical
output across runs is not guaranteed by the code for general inputs. -/
theorem manifest_order_counterexample :
    IsSetEnum ["kotoba-a", "kotoba-b"]
      (_get_crate_dependencies cx_mapping cx_nodes cx_edges "kotoba-x") ∧
    IsSetEnum ["kotoba-b", "kotoba-a"]
      (_get_crate_dependencies cx_mapping cx_nodes cx_edges "kotoba-x") ∧
    generate_cargo_toml_with cx_mapping cx_nodes "kotoba-x"
      ["kotoba-a", "kotoba-b"] ≠
    generate_cargo_toml_with cx_mapping cx_nodes "kotoba-x"
      ["kotoba-b", "kotoba-a"] := by
  refine ⟨by decide, by decide, by decide⟩

/-- Claim C4 amended: on the hard-coded graph and partition of the script,
every crate resolves to at most one internal dependency, so the manifest is
the same for every admissible enumeration of the resolved dependency set:
re-running the pass on this repository yields byte-identical output. -/
theorem manifest_deterministic_on_repo_data (crate_name : String)
    (hmem : crate_name ∈ crate_mapping.map Prod.fst)
    (l1 l2 : List String)
    (h1 : IsSetEnum l1
      (_get_crate_dependencies crate_mapping dag_nodes dag_edges crate_name))
    (h2 : IsSetEnum l2
      (_get_crate_dependencies crate_mapping dag_nodes dag_edges crate_name)) :
    generate_cargo_toml_with crate_mapping dag_nodes crate_name l1 =
    generate_cargo_toml_with crate_mapping dag_nodes crate_name l2 := by
  fin_cases hmem
  · have e : _get_crate_dependencies crate_mapping dag_nodes dag_edges
        "kotoba-core" = [] := by decide
    rw [e] at h1 h2
    rw [isSetEnum_nil h1, isSetEnum_nil h2]
  · have e : _get_crate_dependencies crate_mapping dag_nodes dag_edges
        "kotoba-graph" = ["kotoba-core"] := by decide
    rw [e] at h1 h2
    rw [isSetEnum_singleton h1, isSetEnum_singleton h2]
  · have e : _get_crate_dependencies crate_mapping dag_nodes dag_edges
        "kotoba-storage" = [] := by decide
    rw [e] at h1 h2
    rw [isSetEnum_nil h1, isSetEnum_nil h2]
  · have e : _get_crate_dependencies crate_mapping dag_nodes dag_edges
        "kotoba-execution" = [] := by decide
    rw [e] at h1 h2
    rw [isSetEnum_nil h1, isSetEnum_nil h2]
  · have e : _get_crate_dependencies crate_mapping dag_nodes dag_edges
        "kotoba-rewrite" = [] := by decide
    rw [e] at h1 h2
    rw [isSetEnum_nil h1, isSetEnum_nil h2]
  · have e : _get_crate_dependencies crate_mapping dag_nodes dag_edges
        "kotoba-server" = [] := by decide
    rw [e] at h1 h2
    rw [isSetEnum_nil h1, isSetEnum_nil h2]

theorem manifest_deterministic_on_repo_data_witness :
    generate_cargo_toml_with crate_mapping dag_nodes "kotoba-graph"
      ["kotoba-core"] =
    generate_cargo_toml_with crate_mapping dag_nodes "kotoba-graph"
      ["kotoba-core"] :=
  manifest_deterministic_on_repo_data "kotoba-graph" (by decide)
    ["kotoba-core"] ["kotoba-core"] (by decide) (by decide)

end GenerateCrates
